import Mathlib

/-!
# TrailMap — verification of the detection ingestion and aggregation layer

Shallow embedding of the core of the TrailMap repository:

* `src/trailmap/firestore_utils.py` — `ingest_detections` (the Ingestion
  Validator & Writer) over the detection store;
* `src/ingest_service.py` — the FastAPI ingestion endpoint with bearer-token
  auth and pydantic `DetectionRow` validation;
* `src/pages/01_Map.py` — the aggregation engine (`agg_df`, `heading_df`,
  `COMPASS_DEG`).

Timestamps are modelled as a six-field record; the store (a Firestore
collection) as an association list from document id to record, with
`set(..., merge=False)` semantics given by `setDoc`.  External library
behaviour that the code relies on (`pandas.to_datetime`, pydantic integer
coercion, `pandas.Series.mode`) is modelled by small executable functions,
each documented at its definition.
-/

namespace TrailMap

/-- Wall-clock timestamp to second precision (model of a Python `datetime`).
Fields are unconstrained naturals; validity ranges are enforced by the
parser where the code enforces them. -/
structure DateTime where
  year : Nat
  month : Nat
  day : Nat
  hour : Nat
  minute : Nat
  second : Nat
deriving DecidableEq, Repr

instance : Inhabited DateTime := ⟨⟨0, 0, 0, 0, 0, 0⟩⟩

/-- Zero-pad a natural to two digits, as Python `strftime` does for
`%m %d %H %M %S`. -/
def pad2 (n : Nat) : String :=
  if n < 10 then "0" ++ toString n else toString n

/-- Zero-pad a natural to four digits, as Python `strftime` does for `%Y`. -/
def pad4 (n : Nat) : String :=
  if n < 10 then "000" ++ toString n
  else if n < 100 then "00" ++ toString n
  else if n < 1000 then "0" ++ toString n
  else toString n

/-- `dt.strftime("%Y%m%dT%H%M%S")` from `ingest_detections`
(e.g. `20250805T131045`). -/
def strftimeCompact (dt : DateTime) : String :=
  pad4 dt.year ++ pad2 dt.month ++ pad2 dt.day ++ "T" ++
    pad2 dt.hour ++ pad2 dt.minute ++ pad2 dt.second

/-- Digit run to a natural: `some` iff the list is nonempty and all digits. -/
def digitsToNat (l : List Char) : Option Nat :=
  if l ≠ [] ∧ l.all Char.isDigit then
    some (l.foldl (fun a c => a * 10 + (c.toNat - 48)) 0)
  else none

/-- Model of `pandas.to_datetime(...).to_pydatetime()` (an external library
call): accepts `YYYY-MM-DD HH:MM:SS` (or with a `T` separator) with in-range
fields, and fails on anything else.  The claims depend only on the
parse-success / parse-failure dichotomy, never on the exact grammar. -/
def parseTimestamp (s : String) : Option DateTime :=
  match s.toList with
  | [y1, y2, y3, y4, c1, m1, m2, c2, d1, d2, c3, h1, h2, c4, n1, n2, c5, e1, e2] =>
    if (c1 = '-' ∧ c2 = '-' ∧ (c3 = ' ' ∨ c3 = 'T') ∧ c4 = ':' ∧ c5 = ':') then
      match digitsToNat [y1, y2, y3, y4], digitsToNat [m1, m2], digitsToNat [d1, d2],
            digitsToNat [h1, h2], digitsToNat [n1, n2], digitsToNat [e1, e2] with
      | some y, some mo, some d, some h, some mi, some se =>
        if (1 ≤ mo ∧ mo ≤ 12 ∧ 1 ≤ d ∧ d ≤ 31 ∧ h ≤ 23 ∧ mi ≤ 59 ∧ se ≤ 59) then
          some ⟨y, mo, d, h, mi, se⟩
        else none
      | _, _, _, _, _, _ => none
    else none
  | _ => none

/-- One incoming detection row as handed to `ingest_detections` — a dict with
the required keys, plus the optional `direction` key that the Streamlit
upload path carries through (`{**r, ...}` keeps every key of the row). -/
structure DetectionInput where
  file_name : String
  date_time : String
  buck_count : Int
  deer_count : Int
  doe_count : Int
  camera_id : String
  direction : Option String
deriving DecidableEq, Repr

/-- A stored detection document: the row's fields with `date_time` replaced
by the parsed timestamp and `ingested_at` stamped (`payload = {**r,
"date_time": dt, "ingested_at": datetime.utcnow()}`). -/
structure DetectionRecord where
  file_name : String
  date_time : DateTime
  buck_count : Int
  deer_count : Int
  doe_count : Int
  camera_id : String
  direction : Option String
  ingested_at : DateTime
deriving DecidableEq, Repr

/-- The `detections` Firestore collection: document id ↦ document. -/
abbrev DetectionStore := List (String × DetectionRecord)

/-- `doc.set(payload, merge=False)`: full overwrite of the document at that
id (or creation).  Represented by removing any entry with that id and
prepending the new one; the key ↦ record mapping is what matters. -/
def setDoc (s : DetectionStore) (k : String) (v : DetectionRecord) : DetectionStore :=
  (k, v) :: s.filter (fun p => p.1 != k)

/-- Read the document stored under id `k`, if any. -/
def lookupDoc (s : DetectionStore) (k : String) : Option DetectionRecord :=
  (s.find? (fun p => p.1 == k)).map (·.2)

/-- Number of stored entries under id `k` (for the no-duplication claims). -/
def countKey (s : DetectionStore) (k : String) : Nat :=
  s.countP (fun p => p.1 == k)

/-- `doc_id = f"{cam_id}_{ts_str}_{r['file_name']}"` from
`ingest_detections`. -/
def doc_id (cam_id : String) (dt : DateTime) (file_name : String) : String :=
  cam_id ++ "_" ++ strftimeCompact dt ++ "_" ++ file_name

/-- The per-row timestamp normalisation of `ingest_detections`:
`datetime.utcnow()` for the literal `"NOW"`, else
`pd.to_datetime(...)`. -/
def resolveTimestamp (now : DateTime) (r : DetectionInput) : Option DateTime :=
  if r.date_time = "NOW" then some now else parseTimestamp r.date_time

/-- The Firestore payload assembled for one row. -/
def mkPayload (r : DetectionInput) (dt now : DateTime) : DetectionRecord :=
  { file_name := r.file_name
    date_time := dt
    buck_count := r.buck_count
    deer_count := r.deer_count
    doe_count := r.doe_count
    camera_id := r.camera_id
    direction := r.direction
    ingested_at := now }

/-- The validation/staging loop of `ingest_detections`: for each row in
order, check `camera_id` against the registry snapshot, normalise the
timestamp, and stage `batch.set(...)`; the first bad row raises, matching
the Python `raise ValueError` (unknown camera is checked before the
timestamp, as in the source). -/
def buildBatch (cameras : List String) (now : DateTime) :
    List DetectionInput → Except String (List (String × DetectionRecord))
  | [] => .ok []
  | r :: rs =>
    if r.camera_id ∈ cameras then
      match resolveTimestamp now r with
      | some dt =>
        (buildBatch cameras now rs).map
          (fun b => (doc_id r.camera_id dt r.file_name, mkPayload r dt now) :: b)
      | none => .error ("Bad date_time '" ++ r.date_time ++ "'")
    else .error ("Unknown camera_id '" ++ r.camera_id ++ "' – create camera first.")

/-- `batch.commit()`: apply the staged writes, in order, to the store. -/
def commitBatch (store : DetectionStore) (batch : List (String × DetectionRecord)) :
    DetectionStore :=
  batch.foldl (fun s p => setDoc s p.1 p.2) store

/-- `ingest_detections(rows)` over a camera-registry snapshot `cameras`
(the `camera_cache` taken once at the start of the call) at wall-clock time
`now`.  Nothing reaches the store until the whole batch has validated;
a raised `ValueError` is the `Except.error` case, in which the caller's
store is untouched. -/
def ingest_detections (store : DetectionStore) (cameras : List String)
    (now : DateTime) (rows : List DetectionInput) : Except String DetectionStore :=
  (buildBatch cameras now rows).map (commitBatch store)

/-- Whether an ingestion call raised. -/
def isIngestError (x : Except String DetectionStore) : Bool :=
  match x with
  | .error _ => true
  | .ok _ => false

/-! ## Ingestion endpoint (`src/ingest_service.py`) -/

/-- The shared bearer token (`API_TOKEN = "replace-me-or-use-env"`). -/
def API_TOKEN : String := "replace-me-or-use-env"

/-- One data row of the decoded CSV body as produced by `csv.DictReader`:
a mapping from header names to raw string cells.  A `none` field models a
column absent from the CSV header. -/
structure CsvRow where
  file_name : Option String
  date_time : Option String
  buck_count : Option String
  deer_count : Option String
  doe_count : Option String
  camera_id : Option String
  direction : Option String
deriving DecidableEq, Repr

/-- Model of pydantic's lax string-to-int coercion (an external library
behaviour): an optional sign followed by a nonempty digit run; anything
else (empty, fractional, alphabetic) is rejected. -/
def parseIntStr (s : String) : Option Int :=
  match s.toList with
  | '-' :: rest => (digitsToNat rest).map (fun n => -(n : Int))
  | l => (digitsToNat l).map Int.ofNat

/-- The pydantic model `DetectionRow` of `ingest_service.py`.  Note that it
declares no `direction` field: pydantic's default configuration silently
ignores undeclared keys, so a `direction` CSV column never reaches this
model. -/
structure DetectionRow where
  file_name : String
  date_time : String
  buck_count : Int
  deer_count : Int
  doe_count : Int
  camera_id : String
deriving DecidableEq, Repr

/-- `DetectionRow(**r)`: validate one decoded CSV row against the pydantic
model — every declared field must be present, the three counts must coerce
to integers and satisfy `Field(ge=0)`; the extra `direction` key is
ignored. -/
def mkDetectionRow (r : CsvRow) : Except String DetectionRow :=
  match r.file_name, r.date_time, r.camera_id with
  | some fn, some dtv, some cid =>
    match r.buck_count.bind parseIntStr, r.deer_count.bind parseIntStr,
          r.doe_count.bind parseIntStr with
    | some b, some de, some dd =>
      if 0 ≤ b ∧ 0 ≤ de ∧ 0 ≤ dd then
        .ok { file_name := fn, date_time := dtv, buck_count := b,
              deer_count := de, doe_count := dd, camera_id := cid }
      else .error "validation error: count must be greater than or equal to 0"
    | _, _, _ => .error "validation error: count is not a valid integer"
  | _, _, _ => .error "validation error: field required"

/-- `[DetectionRow(**r) for r in reader]`: the comprehension stops at the
first row that fails validation and the exception aborts the request. -/
def parseRows : List CsvRow → Except String (List DetectionRow)
  | [] => .ok []
  | r :: rs =>
    match mkDetectionRow r with
    | .error e => .error e
    | .ok d => (parseRows rs).map (d :: ·)

/-- `r.model_dump()`: the dict of the declared pydantic fields, handed to
`ingest_detections`.  `DetectionRow` declares no `direction` field, so the
dumped row carries none. -/
def model_dump (r : DetectionRow) : DetectionInput :=
  { file_name := r.file_name
    date_time := r.date_time
    buck_count := r.buck_count
    deer_count := r.deer_count
    doe_count := r.doe_count
    camera_id := r.camera_id
    direction := none }

/-- HTTP outcome of a call to `POST /api/ingest`.  `noContent` (204) carries
the store state after the write; the error responses perform no write. -/
inductive IngestResponse where
  | noContent : DetectionStore → IngestResponse
  | unauthorized : IngestResponse
  | badRequest : String → IngestResponse
deriving DecidableEq, Repr

/-- Whether a response is the 204 success case. -/
def isNoContent (x : IngestResponse) : Bool :=
  match x with
  | .noContent _ => true
  | _ => false

/-- `ingest_endpoint`: `_check_auth(authorization)` runs first (`401` unless
the header equals `"Bearer " + API_TOKEN` exactly); then the body rows are
validated through `DetectionRow` (`400 Malformed CSV` on the first
failure); then `ingest_detections` runs on the dumped rows, its
`ValueError` surfacing as `400`.  The body is modelled after CSV decoding,
as the list of `DictReader` rows. -/
def ingest_endpoint (authorization : Option String) (body : List CsvRow)
    (store : DetectionStore) (cameras : List String) (now : DateTime) :
    IngestResponse :=
  if authorization ≠ some ("Bearer " ++ API_TOKEN) then .unauthorized
  else
    match parseRows body with
    | .error e => .badRequest ("Malformed CSV: " ++ e)
    | .ok rows =>
      match ingest_detections store cameras now (rows.map model_dump) with
      | .error e => .badRequest e
      | .ok s => .noContent s

/-! ## Aggregation engine (`src/pages/01_Map.py`) -/

/-- The six timestamp fields in comparison order. -/
def dtFields (dt : DateTime) : List Nat :=
  [dt.year, dt.month, dt.day, dt.hour, dt.minute, dt.second]

/-- Lexicographic `≤` on equal-length lists of naturals. -/
def natListLE : List Nat → List Nat → Bool
  | [], _ => true
  | _ :: _, [] => false
  | a :: as, b :: bs => decide (a < b) || (decide (a = b) && natListLE as bs)

/-- Chronological order on timestamps (well-formed timestamps compare
field-lexicographically). -/
def dtLE (a b : DateTime) : Bool :=
  natListLE (dtFields a) (dtFields b)

/-- Calendar date of a timestamp, for the `dt.date.between` filter. -/
def dateTriple (dt : DateTime) : Nat × Nat × Nat :=
  (dt.year, dt.month, dt.day)

/-- Lexicographic `≤` on calendar dates. -/
def dateLE (a b : Nat × Nat × Nat) : Bool :=
  natListLE [a.1, a.2.1, a.2.2] [b.1, b.2.1, b.2.2]

/-- The sidebar filter: selected cameras, inclusive calendar-date range,
inclusive hour-of-day range. -/
structure AggFilter where
  cameras : List String
  dateLo : Nat × Nat × Nat
  dateHi : Nat × Nat × Nat
  hourLo : Nat
  hourHi : Nat

/-- The row mask of `01_Map.py`:
`camera_id.isin(selected) & date.between(*date_range) &
hour.between(*hour_range)`. -/
def maskRow (f : AggFilter) (r : DetectionRecord) : Bool :=
  f.cameras.contains r.camera_id
    && dateLE f.dateLo (dateTriple r.date_time)
    && dateLE (dateTriple r.date_time) f.dateHi
    && (f.hourLo ≤ r.date_time.hour && r.date_time.hour ≤ f.hourHi)

/-- The group keys of a `groupby("camera_id")`, in first-occurrence order.
(pandas emits groups sorted by key; the rollup claims are insensitive to
the order of groups, only to which groups exist and their values.) -/
def groupKeys (rows : List DetectionRecord) : List String :=
  rows.foldl (fun acc r => if acc.contains r.camera_id then acc else acc ++ [r.camera_id]) []

/-- `.round(2)`: round to two decimal places (over ℚ; the claims do not
depend on the behaviour at exact half-way points). -/
def round2 (q : Rat) : Rat :=
  ((q * 100 + 1 / 2).floor : Rat) / 100

/-- Sum of the `buck_count` column of a group. -/
def sumBuck (g : List DetectionRecord) : Int :=
  (g.map (·.buck_count)).foldl (· + ·) 0

/-- Sum of the `doe_count` column of a group. -/
def sumDoe (g : List DetectionRecord) : Int :=
  (g.map (·.doe_count)).foldl (· + ·) 0

/-- `("date_time", "max")`: maximum of a timestamp column. -/
def listMaxDT : List DateTime → DateTime
  | [] => default
  | h :: t => t.foldl (fun a b => if dtLE a b then b else a) h

/-- One row of `agg_df` for one camera. -/
structure Rollup where
  total : Nat
  buck_pct : Rat
  doe_pct : Rat
  last_seen : DateTime
deriving DecidableEq, Repr

/-- One camera's row of `agg_df`: over its group `g` of retained rows,
`total = count("file_name")` (every stored row carries a file name, so the
column count is the row count), `buck_pct = (sum(buck)/total).round(2)`,
`doe_pct = (sum(doe)/total).round(2)`, `last_seen = max(date_time)`. -/
def buildRollup (retained : List DetectionRecord) (c : String) : Rollup :=
  let g := retained.filter (fun r => r.camera_id == c)
  { total := g.length
    buck_pct := round2 ((sumBuck g : Rat) / (g.length : Rat))
    doe_pct := round2 ((sumDoe g : Rat) / (g.length : Rat))
    last_seen := listMaxDT (g.map (·.date_time)) }

/-- `agg_df`: on an empty detection frame, an empty rollup; otherwise group
the masked rows by `camera_id` and build each group's rollup row. -/
def aggregate (det : List DetectionRecord) (f : AggFilter) : List (String × Rollup) :=
  if det.isEmpty then []
  else
    (groupKeys (det.filter (maskRow f))).map
      (fun c => (c, buildRollup (det.filter (maskRow f)) c))

/-- `COMPASS_DEG`: the 8-point compass to degrees-clockwise-from-North
table. -/
def COMPASS_DEG : List (String × Nat) :=
  [("N", 0), ("NE", 45), ("E", 90), ("SE", 135),
   ("S", 180), ("SW", 225), ("W", 270), ("NW", 315)]

/-- Model of Python `str.upper()` for the ASCII direction strings:
upper-case every character. -/
def strUpper (s : String) : String :=
  ⟨s.data.map Char.toUpper⟩

/-- `direction.str.upper().map(COMPASS_DEG)`: upper-case the direction
string and look it up; a missing direction or an unknown string is NaN
(`none`). -/
def directionDeg (d : Option String) : Option Nat :=
  d.bind (fun s => (COMPASS_DEG.find? (fun p => p.1 == strUpper s)).map (·.2))

/-- Model of `Series.mode().iat[0]` (an external library behaviour):
`pandas.Series.mode` returns the most frequent values **sorted in ascending
order**, so `.iat[0]` is the *smallest* value among those of maximal
frequency — not the first one encountered.  `none` on an empty series. -/
def pandasModeFirst (l : List Nat) : Option Nat :=
  let maxFreq := (l.map (fun x => l.count x)).foldl Nat.max 0
  (l.filter (fun x => l.count x == maxFreq)).foldl
    (fun acc x => match acc with
      | none => some x
      | some a => some (Nat.min a x)) none

/-- The tie-break the spec claims (stated from the spec's words, for
comparison with `pandasModeFirst`): among the values of maximal frequency,
the one that appears **first in the grouped input sequence**. -/
def modeFirstEncountered (l : List Nat) : Option Nat :=
  let maxFreq := (l.map (fun x => l.count x)).foldl Nat.max 0
  l.find? (fun x => l.count x == maxFreq)

/-- `heading_df`: among masked rows with a non-null `direction_deg`, group
by camera and take `s.mode().iat[0]` of the degree values. -/
def headingRollup (det : List DetectionRecord) (f : AggFilter) :
    List (String × Nat) :=
  if det.isEmpty then []
  else
    let rows := det.filter (fun r => maskRow f r && (directionDeg r.direction).isSome)
    (groupKeys rows).filterMap (fun c =>
      (pandasModeFirst ((rows.filter (fun r => r.camera_id == c)).filterMap
          (fun r => directionDeg r.direction))).map (fun h => (c, h)))

/-! ## Vocabulary used by the claim statements -/

/-- Look one camera's rollup up in an aggregation result. -/
def rollupLookup (l : List (String × Rollup)) (c : String) : Option Rollup :=
  (l.find? (fun p => p.1 == c)).map (·.2)

/-- The retained (mask-passing) rows of one camera — the group that
`groupby("camera_id")` forms for it. -/
def retainedGroup (det : List DetectionRecord) (f : AggFilter) (c : String) :
    List DetectionRecord :=
  (det.filter (maskRow f)).filter (fun r => r.camera_id == c)

/-- Classification used by the count-validation claim: a CSV cell that is
present but is not an integer, or is a negative integer. -/
def badCountCell (s? : Option String) : Bool :=
  match s? with
  | none => false
  | some s =>
    match parseIntStr s with
    | none => true
    | some n => decide (n < 0)

/-! ## Concrete data used to instantiate the claims -/

/-- A fixed ingestion wall-clock instant. -/
def dnow : DateTime := ⟨2025, 8, 5, 13, 10, 45⟩

/-- A second, later ingestion instant (for re-ingestion scenarios). -/
def dnow2 : DateTime := ⟨2025, 8, 6, 9, 0, 0⟩

/-- The timestamp carried by the sample rows (the spec's example row). -/
def dtSample : DateTime := ⟨2024, 9, 26, 6, 42, 56⟩

/-- A valid row for camera `C1` (the sample row of the Upload page). -/
def rowGood : DetectionInput :=
  { file_name := "MUD_0276.JPG", date_time := "2024-09-26 06:42:56",
    buck_count := 1, deer_count := 0, doe_count := 0, camera_id := "C1",
    direction := some "N" }

/-- The same `(camera_id, timestamp, file_name)` identity as `rowGood` with
different other field values. -/
def rowGood2 : DetectionInput :=
  { file_name := "MUD_0276.JPG", date_time := "2024-09-26 06:42:56",
    buck_count := 2, deer_count := 7, doe_count := 5, camera_id := "C1",
    direction := some "W" }

/-- A row referencing the unregistered camera `X`. -/
def rowUnknownX : DetectionInput :=
  { file_name := "A.JPG", date_time := "2024-09-26 06:42:56",
    buck_count := 0, deer_count := 1, doe_count := 0, camera_id := "X",
    direction := none }

/-- A row referencing the unregistered camera `Y`. -/
def rowUnknownY : DetectionInput :=
  { file_name := "B.JPG", date_time := "2024-09-26 06:42:56",
    buck_count := 0, deer_count := 1, doe_count := 0, camera_id := "Y",
    direction := none }

/-- A row whose `date_time` parses as nothing. -/
def rowBadTs : DetectionInput :=
  { file_name := "C.JPG", date_time := "garbage",
    buck_count := 0, deer_count := 0, doe_count := 0, camera_id := "C1",
    direction := none }

/-- A row with a negative `buck_count`, as the Streamlit upload path can
hand to the writer (that path performs no count validation). -/
def rowNegCounts : DetectionInput :=
  { file_name := "MUD_0276.JPG", date_time := "2024-09-26 06:42:56",
    buck_count := -1, deer_count := 0, doe_count := 0, camera_id := "C1",
    direction := none }

/-- The store after ingesting `rowGood` into an empty store at `dnow`. -/
def demoStore1 : DetectionStore :=
  [(doc_id "C1" dtSample "MUD_0276.JPG", mkPayload rowGood dtSample dnow)]

/-- The store after re-ingesting `rowGood2` over `demoStore1` at `dnow2`. -/
def demoStore2 : DetectionStore :=
  [(doc_id "C1" dtSample "MUD_0276.JPG", mkPayload rowGood2 dtSample dnow2)]

/-- An unrelated pre-existing detection document. -/
def recOther : DetectionRecord :=
  { file_name := "OLD.JPG", date_time := ⟨2023, 1, 2, 3, 4, 5⟩,
    buck_count := 0, deer_count := 2, doe_count := 1, camera_id := "C2",
    direction := none, ingested_at := ⟨2023, 1, 2, 3, 4, 6⟩ }

/-- A store holding only the unrelated document, keyed `other_doc`. -/
def demoOther : DetectionStore := [("other_doc", recOther)]

/-- `demoOther` after ingesting `rowGood` at `dnow`. -/
def demoStore3 : DetectionStore :=
  [(doc_id "C1" dtSample "MUD_0276.JPG", mkPayload rowGood dtSample dnow),
   ("other_doc", recOther)]

/-- A decoded CSV row with every column present, `direction` included. -/
def csvRowDirN : CsvRow :=
  { file_name := some "MUD_0276.JPG", date_time := some "2024-09-26 06:42:56",
    buck_count := some "1", deer_count := some "0", doe_count := some "0",
    camera_id := some "C1", direction := some "N" }

/-- A decoded CSV row whose `buck_count` cell is `-1`. -/
def csvRowNegBuck : CsvRow :=
  { file_name := some "D.JPG", date_time := some "2024-09-26 06:42:56",
    buck_count := some "-1", deer_count := some "0", doe_count := some "0",
    camera_id := some "C1", direction := none }

/-- A stored detection at `dtSample` for camera `C1` heading east. -/
def recE : DetectionRecord :=
  { file_name := "E.JPG", date_time := dtSample, buck_count := 0,
    deer_count := 1, doe_count := 0, camera_id := "C1",
    direction := some "E", ingested_at := dnow }

/-- A stored detection at `dtSample` for camera `C1` heading north. -/
def recN : DetectionRecord :=
  { file_name := "N.JPG", date_time := dtSample, buck_count := 1,
    deer_count := 1, doe_count := 0, camera_id := "C1",
    direction := some "N", ingested_at := dnow }

/-- A filter retaining camera `C1` over all of 2024–2025, any hour. -/
def fAll : AggFilter :=
  { cameras := ["C1"], dateLo := (2024, 1, 1), dateHi := (2025, 12, 31),
    hourLo := 0, hourHi := 23 }

/-! ## Lemmas about the detection store -/

theorem lookupDoc_setDoc_self (s : DetectionStore) (k : String) (v : DetectionRecord) :
    lookupDoc (setDoc s k v) k = some v := by
  simp [lookupDoc, setDoc, List.find?_cons_of_pos]

theorem find?_filter_ne (s : DetectionStore) (k k0 : String) (h : k ≠ k0) :
    (s.filter (fun p => p.1 != k0)).find? (fun p => p.1 == k) =
      s.find? (fun p => p.1 == k) := by
  induction s with
  | nil => rfl
  | cons a t ih =>
    by_cases ha : a.1 = k0
    · have hq : (a.1 != k0) = false := by simp [ha]
      have hp : ¬((a.1 == k) = true) := by
        simp [ha]
        exact fun hk => h hk.symm
      simp only [List.filter_cons, hq, Bool.false_eq_true, if_false, ih]
      exact (List.find?_cons_of_neg t hp).symm
    · have hq : (a.1 != k0) = true := by simp [ha]
      by_cases hak : a.1 = k
      · have hp : ((fun p : String × DetectionRecord => p.1 == k) a) = true := by simp [hak]
        simp only [List.filter_cons, hq, if_true]
        rw [List.find?_cons_of_pos (p := fun p : String × DetectionRecord => p.1 == k) _ hp,
          List.find?_cons_of_pos (p := fun p : String × DetectionRecord => p.1 == k) _ hp]
      · have hp : ¬(((fun p : String × DetectionRecord => p.1 == k) a) = true) := by simp [hak]
        simp only [List.filter_cons, hq, if_true]
        rw [List.find?_cons_of_neg (p := fun p : String × DetectionRecord => p.1 == k) _ hp,
          List.find?_cons_of_neg (p := fun p : String × DetectionRecord => p.1 == k) _ hp, ih]

theorem lookupDoc_setDoc_ne (s : DetectionStore) (k k0 : String) (v : DetectionRecord)
    (h : k ≠ k0) : lookupDoc (setDoc s k0 v) k = lookupDoc s k := by
  have hk : (k0 == k) = false := by
    simp
    exact fun hk => h hk.symm
  simp [lookupDoc, setDoc, List.find?_cons, hk, find?_filter_ne s k k0 h]

theorem countKey_setDoc_self (s : DetectionStore) (k : String) (v : DetectionRecord) :
    countKey (setDoc s k v) k = 1 := by
  have h0 : (s.filter (fun p => p.1 != k)).countP (fun p => p.1 == k) = 0 := by
    rw [List.countP_eq_zero]
    intro a ha
    have := (List.mem_filter.mp ha).2
    simp at this ⊢
    exact this
  simp [countKey, setDoc, List.countP_cons, h0]

theorem lookupDoc_commitBatch_notMem (b : List (String × DetectionRecord)) :
    ∀ (s : DetectionStore) (k : String), k ∉ b.map Prod.fst →
      lookupDoc (commitBatch s b) k = lookupDoc s k := by
  induction b with
  | nil => intro s k _; rfl
  | cons p t ih =>
    intro s k hk
    simp only [List.map_cons, List.mem_cons] at hk
    push_neg at hk
    have : commitBatch s (p :: t) = commitBatch (setDoc s p.1 p.2) t := rfl
    rw [this, ih (setDoc s p.1 p.2) k hk.2, lookupDoc_setDoc_ne s k p.1 p.2 hk.1]

theorem lookupDoc_setDoc_isSome (s : DetectionStore) (k k0 : String) (v : DetectionRecord)
    (h : (lookupDoc s k).isSome = true) : (lookupDoc (setDoc s k0 v) k).isSome = true := by
  by_cases hk : k = k0
  · subst hk; simp [lookupDoc_setDoc_self]
  · rw [lookupDoc_setDoc_ne s k k0 v hk]; exact h

theorem lookupDoc_commitBatch_isSome (b : List (String × DetectionRecord)) :
    ∀ (s : DetectionStore) (k : String), (lookupDoc s k).isSome = true →
      (lookupDoc (commitBatch s b) k).isSome = true := by
  induction b with
  | nil => intro s k h; exact h
  | cons p t ih =>
    intro s k h
    exact ih (setDoc s p.1 p.2) k (lookupDoc_setDoc_isSome s k p.1 p.2 h)

theorem lookupDoc_commitBatch_mem (b : List (String × DetectionRecord)) :
    ∀ (s : DetectionStore) (k : String) (v : DetectionRecord), (k, v) ∈ b →
      (lookupDoc (commitBatch s b) k).isSome = true := by
  induction b with
  | nil => intro s k v h; cases h
  | cons p t ih =>
    intro s k v h
    rcases List.mem_cons.mp h with h | h
    · have : (lookupDoc (setDoc s p.1 p.2) k).isSome = true := by
        rw [← h]; simp [lookupDoc_setDoc_self]
      exact lookupDoc_commitBatch_isSome t (setDoc s p.1 p.2) k this
    · exact ih (setDoc s p.1 p.2) k v h

/-! ## Lemmas about the staging loop -/

theorem buildBatch_ok_valid (cameras : List String) (now : DateTime) :
    ∀ (rows : List DetectionInput) (b : List (String × DetectionRecord)),
      buildBatch cameras now rows = .ok b →
      ∀ r ∈ rows, r.camera_id ∈ cameras ∧ (resolveTimestamp now r).isSome = true := by
  intro rows
  induction rows with
  | nil => intro b _ r hr; cases hr
  | cons a t ih =>
    intro b hb r hr
    by_cases hc : a.camera_id ∈ cameras
    · rw [buildBatch, if_pos hc] at hb
      cases hdt : resolveTimestamp now a with
      | none => rw [hdt] at hb; cases hb
      | some dt =>
        rw [hdt] at hb
        cases hrest : buildBatch cameras now t with
        | error e => rw [hrest] at hb; cases hb
        | ok b' =>
          rcases List.mem_cons.mp hr with h | h
          · subst h; exact ⟨hc, by rw [hdt]; rfl⟩
          · exact ih b' hrest r h
    · rw [buildBatch, if_neg hc] at hb; cases hb

theorem buildBatch_ok_mem (cameras : List String) (now : DateTime) :
    ∀ (rows : List DetectionInput) (b : List (String × DetectionRecord)),
      buildBatch cameras now rows = .ok b →
      ∀ r ∈ rows, ∀ dt, resolveTimestamp now r = some dt →
        (doc_id r.camera_id dt r.file_name, mkPayload r dt now) ∈ b := by
  intro rows
  induction rows with
  | nil => intro b _ r hr; cases hr
  | cons a t ih =>
    intro b hb r hr dt hdt
    by_cases hc : a.camera_id ∈ cameras
    · rw [buildBatch, if_pos hc] at hb
      cases hdta : resolveTimestamp now a with
      | none => rw [hdta] at hb; cases hb
      | some dta =>
        rw [hdta] at hb
        cases hrest : buildBatch cameras now t with
        | error e => rw [hrest] at hb; cases hb
        | ok b' =>
          rw [hrest] at hb
          cases hb
          rcases List.mem_cons.mp hr with h | h
          · subst h
            rw [hdta] at hdt
            cases hdt
            exact List.mem_cons_self _ _
          · exact List.mem_cons_of_mem _ (ih b' hrest r h dt hdt)
    · rw [buildBatch, if_neg hc] at hb; cases hb

theorem buildBatch_ok_keys (cameras : List String) (now : DateTime) :
    ∀ (rows : List DetectionInput) (b : List (String × DetectionRecord)),
      buildBatch cameras now rows = .ok b →
      b.map Prod.fst = rows.filterMap (fun r =>
        (resolveTimestamp now r).map (fun dt => doc_id r.camera_id dt r.file_name)) := by
  intro rows
  induction rows with
  | nil => intro b hb; cases hb; rfl
  | cons a t ih =>
    intro b hb
    by_cases hc : a.camera_id ∈ cameras
    · rw [buildBatch, if_pos hc] at hb
      cases hdta : resolveTimestamp now a with
      | none => rw [hdta] at hb; cases hb
      | some dta =>
        rw [hdta] at hb
        cases hrest : buildBatch cameras now t with
        | error e => rw [hrest] at hb; cases hb
        | ok b' =>
          rw [hrest] at hb
          cases hb
          simp [List.filterMap_cons, hdta, ih b' hrest]
    · rw [buildBatch, if_neg hc] at hb; cases hb

theorem buildBatch_singleton (cameras : List String) (now : DateTime)
    (r : DetectionInput) (dt : DateTime) (hc : r.camera_id ∈ cameras)
    (hdt : resolveTimestamp now r = some dt) :
    buildBatch cameras now [r] =
      .ok [(doc_id r.camera_id dt r.file_name, mkPayload r dt now)] := by
  rw [buildBatch, if_pos hc, hdt]
  rfl

/-! ## Lemmas about the timestamp order -/

theorem natListLE_refl (l : List Nat) : natListLE l l = true := by
  induction l with
  | nil => rfl
  | cons a t ih =>
    simp [natListLE, ih]

theorem natListLE_total (l1 : List Nat) : ∀ l2, natListLE l1 l2 = true ∨ natListLE l2 l1 = true := by
  induction l1 with
  | nil => intro l2; exact Or.inl rfl
  | cons a t ih =>
    intro l2
    cases l2 with
    | nil => exact Or.inr rfl
    | cons b u =>
      simp only [natListLE, Bool.or_eq_true, Bool.and_eq_true, decide_eq_true_eq]
      rcases Nat.lt_trichotomy a b with h | h | h
      · exact Or.inl (Or.inl h)
      · subst h
        rcases ih u with hu | hu
        · exact Or.inl (Or.inr ⟨rfl, hu⟩)
        · exact Or.inr (Or.inr ⟨rfl, hu⟩)
      · exact Or.inr (Or.inl h)

theorem natListLE_trans (l1 : List Nat) :
    ∀ l2 l3, natListLE l1 l2 = true → natListLE l2 l3 = true → natListLE l1 l3 = true := by
  induction l1 with
  | nil => intro l2 l3 _ _; rfl
  | cons a t ih =>
    intro l2 l3 h1 h2
    cases l2 with
    | nil => simp [natListLE] at h1
    | cons b u =>
      cases l3 with
      | nil => simp [natListLE] at h2
      | cons c v =>
        simp only [natListLE, Bool.or_eq_true, Bool.and_eq_true, decide_eq_true_eq] at h1 h2 ⊢
        rcases h1 with h1 | ⟨rfl, h1⟩
        · rcases h2 with h2 | ⟨rfl, h2⟩
          · exact Or.inl (Nat.lt_trans h1 h2)
          · exact Or.inl h1
        · rcases h2 with h2 | ⟨rfl, h2⟩
          · exact Or.inl h2
          · exact Or.inr ⟨rfl, ih u v h1 h2⟩

theorem dtLE_refl (a : DateTime) : dtLE a a = true :=
  natListLE_refl _

theorem dtLE_total (a b : DateTime) : dtLE a b = true ∨ dtLE b a = true :=
  natListLE_total _ _

theorem dtLE_trans {a b c : DateTime} (h1 : dtLE a b = true) (h2 : dtLE b c = true) :
    dtLE a c = true :=
  natListLE_trans _ _ _ h1 h2

/-! ## Lemmas about the column maximum -/

theorem foldMax_eq_or_mem (t : List DateTime) :
    ∀ init, t.foldl (fun a b => if dtLE a b then b else a) init = init ∨
      t.foldl (fun a b => if dtLE a b then b else a) init ∈ t := by
  induction t with
  | nil => intro init; exact Or.inl rfl
  | cons h u ih =>
    intro init
    rw [List.foldl_cons]
    rcases ih (if dtLE init h then h else init) with he | hm
    · rw [he]
      by_cases hc : dtLE init h = true
      · rw [if_pos hc]; exact Or.inr (List.mem_cons_self _ _)
      · rw [if_neg hc]; exact Or.inl rfl
    · exact Or.inr (List.mem_cons_of_mem _ hm)

theorem dtLE_foldMax (t : List DateTime) :
    ∀ init, dtLE init (t.foldl (fun a b => if dtLE a b then b else a) init) = true := by
  induction t with
  | nil => intro init; exact dtLE_refl init
  | cons h u ih =>
    intro init
    rw [List.foldl_cons]
    have hstep : dtLE init (if dtLE init h then h else init) = true := by
      by_cases hc : dtLE init h = true
      · rw [if_pos hc]; exact hc
      · rw [if_neg hc]; exact dtLE_refl init
    exact dtLE_trans hstep (ih (if dtLE init h then h else init))

theorem dtLE_foldMax_of_mem (t : List DateTime) :
    ∀ init x, x ∈ t → dtLE x (t.foldl (fun a b => if dtLE a b then b else a) init) = true := by
  induction t with
  | nil => intro init x hx; cases hx
  | cons b u ih =>
    intro init x hx
    rw [List.foldl_cons]
    rcases List.mem_cons.mp hx with rfl | hx
    · have hstep : dtLE x (if dtLE init x then x else init) = true := by
        by_cases hc : dtLE init x = true
        · rw [if_pos hc]; exact dtLE_refl x
        · rw [if_neg hc]
          rcases dtLE_total x init with hd | hd
          · exact hd
          · exact absurd hd hc
      exact dtLE_trans hstep (dtLE_foldMax u (if dtLE init x then x else init))
    · exact ih (if dtLE init b then b else init) x hx

theorem listMaxDT_mem (l : List DateTime) (h : l ≠ []) : listMaxDT l ∈ l := by
  cases l with
  | nil => exact absurd rfl h
  | cons a t =>
    rcases foldMax_eq_or_mem t a with he | hm
    · rw [listMaxDT, he]; exact List.mem_cons_self _ _
    · exact List.mem_cons_of_mem _ hm

theorem listMaxDT_isMax (l : List DateTime) (x : DateTime) (hx : x ∈ l) :
    dtLE x (listMaxDT l) = true := by
  cases l with
  | nil => cases hx
  | cons a t =>
    rcases List.mem_cons.mp hx with rfl | hx
    · exact dtLE_foldMax t x
    · exact dtLE_foldMax_of_mem t a x hx

/-! ## Lemmas about grouping -/

theorem groupKeys_foldl_mem (x : String) (rows : List DetectionRecord) :
    ∀ acc : List String,
      (x ∈ rows.foldl
          (fun acc r => if acc.contains r.camera_id then acc else acc ++ [r.camera_id]) acc
        ↔ x ∈ acc ∨ ∃ r ∈ rows, r.camera_id = x) := by
  induction rows with
  | nil => intro acc; simp
  | cons a t ih =>
    intro acc
    rw [List.foldl_cons]
    by_cases hc : acc.contains a.camera_id = true
    · rw [if_pos hc, ih acc]
      constructor
      · rintro (hx | hx)
        · exact Or.inl hx
        · exact Or.inr (by simpa using Or.inr hx)
      · rintro (hx | hx)
        · exact Or.inl hx
        · rcases hx with ⟨r, hr, hrx⟩
          rcases List.mem_cons.mp hr with rfl | hr
          · exact Or.inl (by rw [← hrx]; exact List.elem_iff.mp hc)
          · exact Or.inr ⟨r, hr, hrx⟩
    · rw [if_neg hc, ih (acc ++ [a.camera_id])]
      constructor
      · rintro (hx | hx)
        · rcases List.mem_append.mp hx with hx | hx
          · exact Or.inl hx
          · exact Or.inr ⟨a, List.mem_cons_self _ _, (List.mem_singleton.mp hx).symm⟩
        · exact Or.inr (by simpa using Or.inr hx)
      · rintro (hx | hx)
        · exact Or.inl (List.mem_append.mpr (Or.inl hx))
        · rcases hx with ⟨r, hr, hrx⟩
          rcases List.mem_cons.mp hr with rfl | hr
          · exact Or.inl (List.mem_append.mpr (Or.inr (by simp [hrx])))
          · exact Or.inr ⟨r, hr, hrx⟩

theorem groupKeys_mem (x : String) (rows : List DetectionRecord) :
    x ∈ groupKeys rows ↔ ∃ r ∈ rows, r.camera_id = x := by
  rw [groupKeys, groupKeys_foldl_mem x rows []]
  simp

theorem find?_mapKeys {β : Type} (build : String → β) (c : String) :
    ∀ keys : List String, c ∈ keys →
      ((keys.map (fun k => (k, build k))).find? (fun p => p.1 == c)).map (·.2) =
        some (build c) := by
  intro keys
  induction keys with
  | nil => intro h; cases h
  | cons a t ih =>
    intro h
    rcases List.mem_cons.mp h with rfl | h
    · rw [List.map_cons,
        List.find?_cons_of_pos (p := fun p : String × β => p.1 == c) _ (by simp)]
      rfl
    · by_cases hac : a = c
      · subst hac
        rw [List.map_cons,
          List.find?_cons_of_pos (p := fun p : String × β => p.1 == a) _ (by simp)]
        rfl
      · rw [List.map_cons,
          List.find?_cons_of_neg (p := fun p : String × β => p.1 == c) _ (by simp [hac]),
          ih h]

/-! ## Lemmas about the endpoint's row validation -/

theorem badCountCell_false_of_bind (c : Option String) (b : Int)
    (hb : c.bind parseIntStr = some b) (hge : 0 ≤ b) : badCountCell c = false := by
  cases c with
  | none => rfl
  | some s =>
    have hps : parseIntStr s = some b := by simpa using hb
    simp [badCountCell, hps]
    omega

theorem mkDetectionRow_ok_counts (r : CsvRow) (d : DetectionRow)
    (h : mkDetectionRow r = .ok d) :
    badCountCell r.buck_count = false ∧ badCountCell r.deer_count = false ∧
      badCountCell r.doe_count = false := by
  unfold mkDetectionRow at h
  split at h
  · split at h
    · rename_i b de dd hb hde hdd
      split at h
      · rename_i hge
        exact ⟨badCountCell_false_of_bind _ b hb hge.1,
          badCountCell_false_of_bind _ de hde hge.2.1,
          badCountCell_false_of_bind _ dd hdd hge.2.2⟩
      · exact absurd h (by simp)
    · exact absurd h (by simp)
  · exact absurd h (by simp)

theorem parseRows_ok_all (body : List CsvRow) :
    ∀ l, parseRows body = .ok l → ∀ r ∈ body, ∃ d, mkDetectionRow r = .ok d := by
  induction body with
  | nil => intro l _ r hr; cases hr
  | cons a t ih =>
    intro l hl r hr
    rw [parseRows] at hl
    cases hma : mkDetectionRow a with
    | error e => rw [hma] at hl; cases hl
    | ok d =>
      rw [hma] at hl
      cases hpt : parseRows t with
      | error e => rw [hpt] at hl; cases hl
      | ok u =>
        rcases List.mem_cons.mp hr with rfl | hr
        · exact ⟨d, hma⟩
        · exact ih u hpt r hr

/-! ## The claims -/

/-- C1: every batch given to `ingest_detections` is all-or-nothing: if any
row fails validation (unknown `camera_id` or unparseable `date_time`) the
call raises — so no state is produced and the store's visible contents are
exactly those before the call — and if the call returns a state, every row
of the batch validated and a record is stored under every row's derived
key. -/
theorem C1_batch_atomicity (store : DetectionStore) (cams : List String)
    (now : DateTime) (rows : List DetectionInput) :
    ((∃ r ∈ rows, r.camera_id ∉ cams ∨ resolveTimestamp now r = none) →
      isIngestError (ingest_detections store cams now rows) = true)
    ∧ (∀ s', ingest_detections store cams now rows = .ok s' →
        ∀ r ∈ rows, r.camera_id ∈ cams ∧ (resolveTimestamp now r).isSome = true)
    ∧ (∀ s', ingest_detections store cams now rows = .ok s' →
        ∀ r ∈ rows, ∀ dt, resolveTimestamp now r = some dt →
          (lookupDoc s' (doc_id r.camera_id dt r.file_name)).isSome = true) := by
  refine ⟨?_, ?_, ?_⟩
  · rintro ⟨r, hr, hbad⟩
    cases hbb : buildBatch cams now rows with
    | error e => simp [isIngestError, ingest_detections, hbb, Except.map]
    | ok b =>
      exfalso
      have hv := buildBatch_ok_valid cams now rows b hbb r hr
      rcases hbad with hbad | hbad
      · exact hbad hv.1
      · rw [hbad] at hv; simp at hv
  · intro s' hs' r hr
    cases hbb : buildBatch cams now rows with
    | error e => rw [ingest_detections, hbb] at hs'; cases hs'
    | ok b => exact buildBatch_ok_valid cams now rows b hbb r hr
  · intro s' hs' r hr dt hdt
    cases hbb : buildBatch cams now rows with
    | error e => rw [ingest_detections, hbb] at hs'; cases hs'
    | ok b =>
      rw [ingest_detections, hbb] at hs'
      simp only [Except.map] at hs'
      cases hs'
      exact lookupDoc_commitBatch_mem b store _ _
        (buildBatch_ok_mem cams now rows b hbb r hr dt hdt)

/-- Witness for C1 at concrete inputs: a batch holding a valid row and a
row for the unregistered camera `X` raises, and ingesting the valid row
alone stores a record under its derived key. -/
theorem C1_batch_atomicity_witness :
    isIngestError (ingest_detections [] ["C1"] dnow [rowGood, rowUnknownX]) = true ∧
    (lookupDoc demoStore1 (doc_id "C1" dtSample "MUD_0276.JPG")).isSome = true :=
  ⟨(C1_batch_atomicity [] ["C1"] dnow [rowGood, rowUnknownX]).1
      ⟨rowUnknownX, by decide, Or.inl (by decide)⟩,
    (C1_batch_atomicity [] ["C1"] dnow [rowGood]).2.2 demoStore1 rfl rowGood
      (by decide) dtSample rfl⟩

/-- C2 (code bug): a batch with two rows whose camera ids `X` and `Y` are
both absent from the registry snapshot raises an error naming only `X` —
the first offending id — not every offending id as the spec states. -/
theorem C2_unknown_camera_error_names_first_only :
    ingest_detections [] [] dnow [rowUnknownX, rowUnknownY] =
      Except.error "Unknown camera_id 'X' – create camera first." := rfl

/-- C3: a row is stored under the key
`camera_id ++ "_" ++ strftime("%Y%m%dT%H%M%S") ++ "_" ++ file_name`, and
re-ingesting the same `(camera_id, timestamp, file_name)` identity with
different other field values leaves exactly one record under that key,
holding the second payload in full. -/
theorem C3_identity_overwrite (store : DetectionStore) (cams : List String)
    (now1 now2 : DateTime) (r1 r2 : DetectionInput) (dt : DateTime)
    (s1 s2 : DetectionStore)
    (_hdt1 : resolveTimestamp now1 r1 = some dt)
    (hdt2 : resolveTimestamp now2 r2 = some dt)
    (hcam : r2.camera_id = r1.camera_id)
    (hfn : r2.file_name = r1.file_name)
    (_h1 : ingest_detections store cams now1 [r1] = .ok s1)
    (h2 : ingest_detections s1 cams now2 [r2] = .ok s2) :
    countKey s2 (doc_id r1.camera_id dt r1.file_name) = 1
    ∧ lookupDoc s2 (doc_id r1.camera_id dt r1.file_name) =
        some (mkPayload r2 dt now2)
    ∧ doc_id r1.camera_id dt r1.file_name =
        r1.camera_id ++ "_" ++ strftimeCompact dt ++ "_" ++ r1.file_name := by
  by_cases hc : r2.camera_id ∈ cams
  · rw [ingest_detections, buildBatch_singleton cams now2 r2 dt hc hdt2] at h2
    simp only [Except.map] at h2
    cases h2
    rw [← hcam, ← hfn]
    exact ⟨countKey_setDoc_self s1 _ _, lookupDoc_setDoc_self s1 _ _, rfl⟩
  · rw [ingest_detections, buildBatch, if_neg hc] at h2
    cases h2

/-- Witness for C3 at concrete inputs: after ingesting `rowGood` and then
`rowGood2` (same identity, different counts), the store holds exactly one
record under the derived key and it carries `rowGood2`'s payload. -/
theorem C3_identity_overwrite_witness :
    countKey demoStore2 (doc_id "C1" dtSample "MUD_0276.JPG") = 1 ∧
    lookupDoc demoStore2 (doc_id "C1" dtSample "MUD_0276.JPG") =
      some (mkPayload rowGood2 dtSample dnow2) :=
  ⟨(C3_identity_overwrite [] ["C1"] dnow dnow2 rowGood rowGood2 dtSample
      demoStore1 demoStore2 rfl rfl rfl rfl rfl rfl).1,
    (C3_identity_overwrite [] ["C1"] dnow dnow2 rowGood rowGood2 dtSample
      demoStore1 demoStore2 rfl rfl rfl rfl rfl rfl).2.1⟩

/-- C4 (code bug): the per-camera heading maps direction strings to degrees
via the 8-point table as claimed, but `Series.mode()` returns the tied
modes sorted ascending, so `.iat[0]` resolves the tie `[E, N]` (degrees
`[90, 0]`) to `0` (`N`, the smallest degree) — not to `90` (`E`, the first
value encountered in the grouped sequence) as the spec and the code's own
`# first value if tie` comment state. -/
theorem C4_heading_tie_not_first_encountered :
    directionDeg recE.direction = some 90 ∧
    directionDeg recN.direction = some 0 ∧
    headingRollup [recE, recN] fAll = [("C1", 0)] ∧
    modeFirstEncountered [90, 0] = some 90 ∧
    pandasModeFirst [90, 0] = some 0 :=
  ⟨rfl, rfl, rfl, rfl, rfl⟩

/-- C5 counterexample: the Ingestion Validator & Writer itself performs no
count validation — a batch whose row carries `buck_count = -1` is written,
not rejected, when handed straight to `ingest_detections` (as the
Streamlit upload path does). -/
theorem C5_writer_accepts_negative_counts :
    rowNegCounts.buck_count = -1 ∧
    ingest_detections [] ["C1"] dnow [rowNegCounts] =
      .ok [(doc_id "C1" dtSample "MUD_0276.JPG",
        mkPayload rowNegCounts dtSample dnow)] :=
  ⟨rfl, rfl⟩

/-- C5 (amended): count validation lives at the HTTP ingestion endpoint: a
decoded body containing any row whose `buck_count`, `deer_count` or
`doe_count` cell is negative or not an integer never reaches a successful
response — the pydantic validation fails the whole request before
`ingest_detections` is invoked, so nothing is written. -/
theorem C5_endpoint_rejects_bad_counts (auth : Option String) (body : List CsvRow)
    (store : DetectionStore) (cams : List String) (now : DateTime) (r : CsvRow)
    (hmem : r ∈ body)
    (hbad : badCountCell r.buck_count = true ∨ badCountCell r.deer_count = true ∨
      badCountCell r.doe_count = true) :
    isNoContent (ingest_endpoint auth body store cams now) = false := by
  rw [ingest_endpoint]
  by_cases ha : auth ≠ some ("Bearer " ++ API_TOKEN)
  · rw [if_pos ha]; rfl
  · rw [if_neg ha]
    cases hpr : parseRows body with
    | error e => rfl
    | ok rows =>
      exfalso
      obtain ⟨d, hd⟩ := parseRows_ok_all body rows hpr r hmem
      have hc := mkDetectionRow_ok_counts r d hd
      rcases hbad with hb | hb | hb
      · rw [hc.1] at hb; cases hb
      · rw [hc.2.1] at hb; cases hb
      · rw [hc.2.2] at hb; cases hb

/-- Witness for the amended C5: a request with a valid token whose body
holds a row with `buck_count = "-1"` does not produce the 204 success
response. -/
theorem C5_endpoint_rejects_bad_counts_witness :
    isNoContent (ingest_endpoint (some ("Bearer " ++ API_TOKEN)) [csvRowNegBuck]
      [] ["C1"] dnow) = false :=
  C5_endpoint_rejects_bad_counts (some ("Bearer " ++ API_TOKEN)) [csvRowNegBuck]
    [] ["C1"] dnow csvRowNegBuck (by decide) (Or.inl (by decide))

/-- C7: `ingest_detections` stores `date_time` as a timestamp — the literal
`"NOW"` becomes the ingestion wall-clock time, any other parseable value
becomes its parsed timestamp, and an unparseable value fails the batch
with an error reporting the raw offending value. -/
theorem C7_timestamp_handling (store : DetectionStore) (cams : List String)
    (now : DateTime) (r : DetectionInput) :
    (r.date_time = "NOW" → r.camera_id ∈ cams →
      ∀ s', ingest_detections store cams now [r] = .ok s' →
        (lookupDoc s' (doc_id r.camera_id now r.file_name)).map (·.date_time) =
          some now)
    ∧ (r.date_time = "NOW" → r.camera_id ∈ cams →
        isIngestError (ingest_detections store cams now [r]) = false)
    ∧ (∀ dt, r.date_time ≠ "NOW" → parseTimestamp r.date_time = some dt →
        r.camera_id ∈ cams →
        ∀ s', ingest_detections store cams now [r] = .ok s' →
          (lookupDoc s' (doc_id r.camera_id dt r.file_name)).map (·.date_time) =
            some dt)
    ∧ (r.date_time ≠ "NOW" → parseTimestamp r.date_time = none →
        r.camera_id ∈ cams →
        ingest_detections store cams now [r] =
          .error ("Bad date_time '" ++ r.date_time ++ "'")) := by
  refine ⟨?_, ?_, ?_, ?_⟩
  · intro hn hcam s' hs'
    have hres : resolveTimestamp now r = some now := by simp [resolveTimestamp, hn]
    rw [ingest_detections, buildBatch_singleton cams now r now hcam hres] at hs'
    simp only [Except.map] at hs'
    cases hs'
    have hcb : commitBatch store [(doc_id r.camera_id now r.file_name,
        mkPayload r now now)] =
        setDoc store (doc_id r.camera_id now r.file_name) (mkPayload r now now) := rfl
    rw [hcb, lookupDoc_setDoc_self]
    rfl
  · intro hn hcam
    have hres : resolveTimestamp now r = some now := by simp [resolveTimestamp, hn]
    rw [ingest_detections, buildBatch_singleton cams now r now hcam hres]
    rfl
  · intro dt hne hp hcam s' hs'
    have hres : resolveTimestamp now r = some dt := by simp [resolveTimestamp, hne, hp]
    rw [ingest_detections, buildBatch_singleton cams now r dt hcam hres] at hs'
    simp only [Except.map] at hs'
    cases hs'
    have hcb : commitBatch store [(doc_id r.camera_id dt r.file_name,
        mkPayload r dt now)] =
        setDoc store (doc_id r.camera_id dt r.file_name) (mkPayload r dt now) := rfl
    rw [hcb, lookupDoc_setDoc_self]
    rfl
  · intro hne hp hcam
    have hres : resolveTimestamp now r = none := by simp [resolveTimestamp, hne, hp]
    rw [ingest_detections, buildBatch, if_pos hcam, hres]
    rfl

/-- Witness for C7 at a concrete input: the unparseable `date_time`
`"garbage"` fails the batch with the error naming that raw value. -/
theorem C7_timestamp_handling_witness :
    ingest_detections [] ["C1"] dnow [rowBadTs] =
      .error ("Bad date_time '" ++ rowBadTs.date_time ++ "'") :=
  (C7_timestamp_handling [] ["C1"] dnow rowBadTs).2.2.2 (by decide) rfl (by decide)

/-- C8: a request whose `Authorization` header is absent or differs from
`"Bearer " ++ API_TOKEN` is answered `401 Unauthorized` before the body is
examined — whatever the body holds, no parse happens and no store write is
performed. -/
theorem C8_endpoint_auth (auth : Option String) (body : List CsvRow)
    (store : DetectionStore) (cams : List String) (now : DateTime)
    (h : auth ≠ some ("Bearer " ++ API_TOKEN)) :
    ingest_endpoint auth body store cams now = .unauthorized := by
  rw [ingest_endpoint, if_pos h]

/-- Witness for C8 at a concrete input: a missing header with an otherwise
fully valid CSV body is rejected as unauthorized. -/
theorem C8_endpoint_auth_witness :
    ingest_endpoint none [csvRowDirN] demoOther ["C1"] dnow = .unauthorized :=
  C8_endpoint_auth none [csvRowDirN] demoOther ["C1"] dnow (by decide)

/-- C9 (code bug): an authenticated POST whose CSV row carries
`direction = "N"` is accepted, but the pydantic `DetectionRow` declares no
`direction` field and silently drops the column, so the record persisted
by the endpoint has no direction at all (`direction = none`). -/
theorem C9_direction_dropped_by_endpoint :
    csvRowDirN.direction = some "N" ∧
    ingest_endpoint (some ("Bearer " ++ API_TOKEN)) [csvRowDirN] [] ["C1"] dnow =
      .noContent [(doc_id "C1" dtSample "MUD_0276.JPG",
        { file_name := "MUD_0276.JPG", date_time := dtSample, buck_count := 1,
          deer_count := 0, doe_count := 0, camera_id := "C1", direction := none,
          ingested_at := dnow })] :=
  ⟨rfl, rfl⟩

/-- C10: a successful `ingest_detections` call only creates or overwrites
documents whose keys are the derived identities of the rows of that call;
every other key maps to exactly what it mapped to before, and no document
is ever deleted. -/
theorem C10_frame_effect (store : DetectionStore) (cams : List String)
    (now : DateTime) (rows : List DetectionInput) (s' : DetectionStore)
    (hok : ingest_detections store cams now rows = .ok s') :
    (∀ k, k ∉ rows.filterMap (fun r =>
        (resolveTimestamp now r).map (fun dt => doc_id r.camera_id dt r.file_name)) →
      lookupDoc s' k = lookupDoc store k)
    ∧ (∀ k, (lookupDoc store k).isSome = true → (lookupDoc s' k).isSome = true) := by
  cases hbb : buildBatch cams now rows with
  | error e => rw [ingest_detections, hbb] at hok; cases hok
  | ok b =>
    rw [ingest_detections, hbb] at hok
    simp only [Except.map] at hok
    cases hok
    constructor
    · intro k hk
      apply lookupDoc_commitBatch_notMem
      rw [buildBatch_ok_keys cams now rows b hbb]
      exact hk
    · intro k hk
      exact lookupDoc_commitBatch_isSome b store k hk

/-- Witness for C10 at concrete inputs: ingesting `rowGood` over a store
holding the unrelated document `other_doc` leaves that document exactly as
it was. -/
theorem C10_frame_effect_witness :
    lookupDoc demoStore3 "other_doc" = lookupDoc demoOther "other_doc" :=
  (C10_frame_effect demoOther ["C1"] dnow [rowGood] demoStore3 rfl).1
    "other_doc" (by decide)

/-- C6: the rollup groups the retained rows by `camera_id` and, per camera,
carries `total` = group row count, `buck_pct` = `round2(sum buck / total)`,
`doe_pct` = `round2(sum doe / total)` and `last_seen` = the maximum
`date_time` of the group (an element of the group that bounds every other
row's timestamp); a camera with no retained row is absent from the rollup;
and an empty detection set yields an empty rollup rather than an error. -/
theorem C6_aggregation_rollup (det : List DetectionRecord) (f : AggFilter) :
    (det = [] → aggregate det f = [])
    ∧ (∀ c, (∀ r ∈ det.filter (maskRow f), r.camera_id ≠ c) →
        rollupLookup (aggregate det f) c = none)
    ∧ (∀ c, (∃ r ∈ det.filter (maskRow f), r.camera_id = c) →
        rollupLookup (aggregate det f) c = some
          { total := (retainedGroup det f c).length
            buck_pct := round2 ((sumBuck (retainedGroup det f c) : Rat) /
              ((retainedGroup det f c).length : Rat))
            doe_pct := round2 ((sumDoe (retainedGroup det f c) : Rat) /
              ((retainedGroup det f c).length : Rat))
            last_seen := listMaxDT ((retainedGroup det f c).map (·.date_time)) }
        ∧ listMaxDT ((retainedGroup det f c).map (·.date_time)) ∈
            (retainedGroup det f c).map (·.date_time)
        ∧ ∀ d ∈ (retainedGroup det f c).map (·.date_time),
            dtLE d (listMaxDT ((retainedGroup det f c).map (·.date_time))) = true) := by
  refine ⟨?_, ?_, ?_⟩
  · intro h; subst h; rfl
  · intro c hc
    rw [aggregate]
    by_cases hd : det.isEmpty = true
    · rw [if_pos hd]; rfl
    · rw [if_neg hd, rollupLookup]
      have hnone : ((groupKeys (det.filter (maskRow f))).map
          (fun k => (k, buildRollup (det.filter (maskRow f)) k))).find?
            (fun p => p.1 == c) = none := by
        rw [List.find?_eq_none]
        intro x hx
        obtain ⟨k, hk, hxk⟩ := List.mem_map.mp hx
        obtain ⟨r, hr, hrc⟩ := (groupKeys_mem k _).mp hk
        have hkc : k ≠ c := fun he => hc r hr (by rw [hrc, he])
        rw [← hxk]
        simp [hkc]
      rw [hnone]
      rfl
  · intro c hex
    have hdne : ¬(det.isEmpty = true) := by
      rcases hex with ⟨r, hr, _⟩
      cases det with
      | nil => simp at hr
      | cons a t => simp
    rw [aggregate, if_neg hdne, rollupLookup]
    have hcmem : c ∈ groupKeys (det.filter (maskRow f)) :=
      (groupKeys_mem c _).mpr hex
    have hgne : (retainedGroup det f c).map (·.date_time) ≠ [] := by
      rcases hex with ⟨r, hr, hrc⟩
      have hrg : r ∈ retainedGroup det f c :=
        List.mem_filter.mpr ⟨hr, by simp [hrc]⟩
      intro hnil
      rw [List.map_eq_nil_iff] at hnil
      rw [hnil] at hrg
      cases hrg
    refine ⟨?_, listMaxDT_mem _ hgne, fun d hd => listMaxDT_isMax _ d hd⟩
    rw [find?_mapKeys (buildRollup (det.filter (maskRow f))) c
      (groupKeys (det.filter (maskRow f))) hcmem]
    rfl

/-- Witness for C6 at concrete inputs: the empty detection set aggregates
to the empty rollup, and two in-window `C1` rows aggregate to the claimed
per-camera summary. -/
theorem C6_aggregation_rollup_witness :
    aggregate ([] : List DetectionRecord) fAll = [] ∧
    rollupLookup (aggregate [recN, recE] fAll) "C1" = some
      { total := (retainedGroup [recN, recE] fAll "C1").length
        buck_pct := round2 ((sumBuck (retainedGroup [recN, recE] fAll "C1") : Rat) /
          ((retainedGroup [recN, recE] fAll "C1").length : Rat))
        doe_pct := round2 ((sumDoe (retainedGroup [recN, recE] fAll "C1") : Rat) /
          ((retainedGroup [recN, recE] fAll "C1").length : Rat))
        last_seen := listMaxDT ((retainedGroup [recN, recE] fAll "C1").map
          (·.date_time)) } :=
  ⟨(C6_aggregation_rollup [] fAll).1 rfl,
    ((C6_aggregation_rollup [recN, recE] fAll).2.2 "C1" ⟨recN, by decide, rfl⟩).1⟩

end TrailMap
